import Mathlib

set_option maxHeartbeats 1000000

/-!
Shallow embedding of the Rancher `clusterdeploy` reconciliation controller
(package `clusterdeploy`: `sync`, `doSync`, `deployAgent`, `redeployAgent`,
`agentFeaturesChanged`, the agent-image and control-plane-taint caches, and
`getControlPlaneTaints`).  External collaborators (node listing, kubectl,
credential and template services, settings) are supplied through an explicit
environment record; the two process-wide caches are threaded as explicit
state.  Machine types: Go strings are `String`, Go maps are association
lists, Go nil-able pointers are `Option`.
-/

/-- Embedding of `corev1.Taint` (the fields the controller compares). -/
structure Taint where
  key : String
  value : String
  effect : String
deriving DecidableEq

/-- Embedding of an agent environment variable override (`v1.EnvVar`). -/
structure EnvVar where
  name : String
  value : String
deriving DecidableEq

/-- Embedding of an RKE private registry entry (`rketypes.PrivateRegistry`);
equality is structural, matching `reflect.DeepEqual` on the pointed-to values. -/
structure Registry where
  url : String
  user : String
  password : String
deriving DecidableEq

/-- Embedding of the parts of `rketypes.RancherKubernetesEngineConfig` the
controller reads: the authentication strategy, the private registry list and
the network plugin. -/
structure RKEConfig where
  authStrategy : String
  privateRegistries : List Registry
  networkPlugin : String
deriving DecidableEq

/-- Embedding of a cluster condition entry (type, status, message). -/
structure Condition where
  condType : String
  status : String
  message : String
deriving DecidableEq

/-- Embedding of the parts of `v3.ClusterSpec` read by the controller. -/
structure ClusterSpec where
  internal : Bool
  localClusterAuthEndpointEnabled : Bool
  desiredAgentImage : String
  desiredAuthImage : String
  agentImageOverride : String
  agentEnvVars : List EnvVar
  rkeConfig : Option RKEConfig
  enableNetworkPolicy : Option Bool
  windowsPreferedCluster : Bool
deriving DecidableEq

/-- Embedding of the parts of `v3.ClusterStatus` read or written by the
controller.  `appliedSpec` is the last-applied `ClusterSpec`. -/
structure ClusterStatus where
  driver : String
  agentImage : String
  authImage : String
  agentFeatures : List (String × Bool)
  appliedAgentEnvVars : List EnvVar
  appliedSpec : ClusterSpec
  conditions : List Condition
deriving DecidableEq

/-- Embedding of `v3.Cluster`: name, annotations, spec, status. -/
structure Cluster where
  name : String
  annotations : List (String × String)
  spec : ClusterSpec
  status : ClusterStatus
deriving DecidableEq

/-- Constant `AgentForceDeployAnn` from the source. -/
def AgentForceDeployAnn : String := "io.cattle.agent.force.deploy"

/-- Name of the `v32.ClusterConditionProvisioned` condition. -/
def ClusterConditionProvisioned : String := "Provisioned"

/-- Name of the `v32.ClusterConditionSystemAccountCreated` condition. -/
def ClusterConditionSystemAccountCreated : String := "SystemAccountCreated"

/-- Name of the `v32.ClusterConditionAgentDeployed` condition. -/
def ClusterConditionAgentDeployed : String := "AgentDeployed"

/-- Value of `v32.ClusterDriverRKE`. -/
def ClusterDriverRKE : String := "rke"

/-- First value in an association list bound to key `k` (Go map access with an
`ok` flag; `none` models a missing key). -/
def lookupKey (l : List (String × α)) (k : String) : Option α :=
  match l with
  | [] => none
  | (k2, v) :: rest => if k2 == k then some v else lookupKey rest k

/-- Go map read without the `ok` flag: a missing key yields the zero value. -/
def lookupKeyD (l : List (String × α)) (k : String) (dflt : α) : α :=
  (lookupKey l k).getD dflt

/-- Remove every binding of key `k` (Go `delete`). -/
def eraseKey (l : List (String × α)) (k : String) : List (String × α) :=
  l.filter (fun p => p.1 != k)

/-- Go map write: bind `k` to `v`, dropping any previous binding. -/
def insertKey (l : List (String × α)) (k : String) (v : α) : List (String × α) :=
  (k, v) :: eraseKey l k

/-- Modelled from the spec: the condition read helper of the condition
library (`v32.ClusterConditionX.IsTrue`, not part of this repository) — a
condition is true when an entry of that type exists with status `"True"`. -/
def condIsTrue (cluster : Cluster) (t : String) : Bool :=
  match cluster.status.conditions.find? (fun c => c.condType == t) with
  | some c => c.status == "True"
  | none => false

/-- Modelled from the spec: the condition write helper of the condition
library (not part of this repository) — set the status of the condition of
type `t`, appending the condition entry if missing. -/
def setCondStatus (cluster : Cluster) (t s : String) : Cluster :=
  let conds :=
    if (cluster.status.conditions.any fun c => c.condType == t) then
      List.map (fun c => if c.condType == t then { c with status := s } else c)
        cluster.status.conditions
    else
      cluster.status.conditions ++ [{ condType := t, status := s, message := "" }]
  { cluster with status := { cluster.status with conditions := conds } }

/-- Modelled from the spec: the condition message helper
(`v32.ClusterConditionX.Message`, not part of this repository). -/
def setCondMessage (cluster : Cluster) (t msg : String) : Cluster :=
  let conds :=
    if (cluster.status.conditions.any fun c => c.condType == t) then
      List.map (fun c => if c.condType == t then { c with message := msg } else c)
        cluster.status.conditions
    else
      cluster.status.conditions ++ [{ condType := t, status := "", message := msg }]
  { cluster with status := { cluster.status with conditions := conds } }

/-- The two process-wide caches of the controller: `agentImages` (the
`nodeImage` and `clusterImage` inner maps) and `controlPlaneTaints`, all
keyed by cluster name. -/
structure CacheState where
  nodeImages : List (String × String)
  clusterImages : List (String × String)
  controlPlaneTaints : List (String × List Taint)
deriving DecidableEq

/-- The caches at process start: all maps empty. -/
def emptyCache : CacheState :=
  { nodeImages := [], clusterImages := [], controlPlaneTaints := [] }

/-- Embedding of `getAgentImages`: read both agent-image entries for a
cluster; a missing key yields the Go zero value `""`. -/
def getAgentImages (name : String) (c : CacheState) : String × String :=
  (lookupKeyD c.nodeImages name "", lookupKeyD c.clusterImages name "")

/-- Embedding of `agentImagesCached`: both entries read back non-empty. -/
def agentImagesCached (name : String) (c : CacheState) : Bool :=
  let na := (getAgentImages name c).1
  let ca := (getAgentImages name c).2
  na != "" && ca != ""

/-- Embedding of `controlPlaneTaintsCached`: the key is present (the Go
`_, ok :=` idiom), regardless of the stored list. -/
def controlPlaneTaintsCached (name : String) (c : CacheState) : Bool :=
  (lookupKey c.controlPlaneTaints name).isSome

/-- Embedding of `getCachedTaints`: the stored list when the key is present,
the nil slice (`[]`) otherwise. -/
def getCachedTaints (name : String) (c : CacheState) : List Taint :=
  (lookupKey c.controlPlaneTaints name).getD []

/-- Embedding of the map writes of `cacheAgentImages` (the remote fetches
that produce the two images are part of the environment). -/
def setAgentImagesEntry (name na ca : String) (c : CacheState) : CacheState :=
  { c with nodeImages := insertKey c.nodeImages name na,
           clusterImages := insertKey c.clusterImages name ca }

/-- Embedding of the map write of `cacheControlPlaneTaints`. -/
def setControlPlaneTaintsEntry (name : String) (ts : List Taint) (c : CacheState) : CacheState :=
  { c with controlPlaneTaints := insertKey c.controlPlaneTaints name ts }

/-- Embedding of `clearAgentImages`: delete both image entries. -/
def clearAgentImages (name : String) (c : CacheState) : CacheState :=
  { c with nodeImages := eraseKey c.nodeImages name,
           clusterImages := eraseKey c.clusterImages name }

/-- Embedding of `clearControlPlaneTaints`: delete the taint entry. -/
def clearControlPlaneTaints (name : String) (c : CacheState) : CacheState :=
  { c with controlPlaneTaints := eraseKey c.controlPlaneTaints name }

/-- Go read of a feature map: missing key yields `false`. -/
def featLookup (m : List (String × Bool)) (k : String) : Bool :=
  lookupKeyD m k false

/-- Embedding of `agentFeaturesChanged` (source lines 164-178): any key of
`desired` whose effective value in `actual` differs, or any key of `actual`
whose effective value in `desired` differs, reports a change. -/
def agentFeaturesChanged (desired actual : List (String × Bool)) : Bool :=
  desired.any (fun p => featLookup actual p.1 != p.2)
    || actual.any (fun p => featLookup desired p.1 != p.2)

theorem lookupKey_eraseKey_self (l : List (String × α)) (k : String) :
    lookupKey (eraseKey l k) k = none := by
  induction l with
  | nil => rfl
  | cons a t ih =>
      cases a with
      | mk k2 v =>
          by_cases h : k2 = k
          · have hp : (((k2, v) : String × α).1 != k) = false := by
              simp [h]
            simp only [eraseKey, List.filter_cons, hp]
            simpa [eraseKey] using ih
          · have hp : (((k2, v) : String × α).1 != k) = true := by
              simp [bne_iff_ne, h]
            have hbeq : (k2 == k) = false := by
              simpa using h
            simp only [eraseKey, List.filter_cons, hp, if_true, lookupKey, hbeq]
            simpa [eraseKey] using ih

theorem lookupKey_insertKey_self (l : List (String × α)) (k : String) (v : α) :
    lookupKey (insertKey l k v) k = some v := by
  simp [insertKey, lookupKey]

theorem lookupKey_eq_some_of_mem {A : List (String × Bool)} {k : String} {v : Bool}
    (hnd : (A.map Prod.fst).Nodup) (hm : (k, v) ∈ A) :
    lookupKey A k = some v := by
  induction A with
  | nil => cases hm
  | cons a t ih =>
      rw [List.map_cons, List.nodup_cons] at hnd
      rcases List.mem_cons.mp hm with h | h
      · cases h
        simp [lookupKey]
      · have hk : a.1 ≠ k := by
          intro he
          exact hnd.1 (he ▸ (List.mem_map.mpr ⟨(k, v), h, rfl⟩))
        cases a with
        | mk k2 w =>
            have : (k2 == k) = false := by simpa using hk
            simp [lookupKey, this]
            exact ih hnd.2 h

theorem lookupKey_eq_none_of_not_mem {A : List (String × α)} {k : String}
    (h : k ∉ A.map Prod.fst) : lookupKey A k = none := by
  induction A with
  | nil => rfl
  | cons a t ih =>
      rw [List.map_cons, List.mem_cons] at h
      push_neg at h
      cases a with
      | mk k2 w =>
          have : (k2 == k) = false := by
            simp only [Prod.fst] at h
            simpa using fun he => h.1 he.symm
          simp [lookupKey, this]
          exact ih h.2

theorem featLookup_eq_of_mem {A : List (String × Bool)} {k : String} {v : Bool}
    (hnd : (A.map Prod.fst).Nodup) (hm : (k, v) ∈ A) : featLookup A k = v := by
  simp [featLookup, lookupKeyD, lookupKey_eq_some_of_mem hnd hm]

/-- Claim C2: for all feature maps `A` (desired) and `B` (observed) with
well-formed (duplicate-free) key sets, `agentFeaturesChanged A B = false`
iff every key present in either map has the same effective boolean value in
both, a missing key reading as `false`. -/
theorem claim_C2_feature_diff (A B : List (String × Bool))
    (hA : (A.map Prod.fst).Nodup) (hB : (B.map Prod.fst).Nodup) :
    agentFeaturesChanged A B = false ↔
      ∀ k : String, (k ∈ A.map Prod.fst ∨ k ∈ B.map Prod.fst) →
        featLookup A k = featLookup B k := by
  have hsplit : agentFeaturesChanged A B = false ↔
      (∀ p ∈ A, featLookup B p.1 = p.2) ∧ (∀ p ∈ B, featLookup A p.1 = p.2) := by
    rw [agentFeaturesChanged, Bool.or_eq_false_iff, List.any_eq_false, List.any_eq_false]
    simp [bne_iff_ne]
  rw [hsplit]
  constructor
  · rintro ⟨h1, h2⟩ k hk
    rcases hk with hk | hk
    · rcases List.mem_map.mp hk with ⟨p, hp, hpk⟩
      cases p with
      | mk k2 v =>
          cases hpk
          rw [featLookup_eq_of_mem hA hp, h1 (k2, v) hp]
    · rcases List.mem_map.mp hk with ⟨p, hp, hpk⟩
      cases p with
      | mk k2 v =>
          cases hpk
          rw [featLookup_eq_of_mem hB hp, h2 (k2, v) hp]
  · intro h
    constructor
    · intro p hp
      have hk : p.1 ∈ A.map Prod.fst := List.mem_map.mpr ⟨p, hp, rfl⟩
      have := h p.1 (Or.inl hk)
      rw [← this]
      exact featLookup_eq_of_mem hA (by cases p; exact hp)
    · intro p hp
      have hk : p.1 ∈ B.map Prod.fst := List.mem_map.mpr ⟨p, hp, rfl⟩
      have := h p.1 (Or.inr hk)
      rw [this]
      exact featLookup_eq_of_mem hB (by cases p; exact hp)

/-- Witness for claim C2 at concrete maps: desired `{x ↦ true}`, observed
`{}` — the diff reports a change, matching the right-hand side failing at
key `x`. -/
theorem claim_C2_feature_diff_witness :
    agentFeaturesChanged [("x", true)] [] = false ↔
      ∀ k : String, (k ∈ ([("x", true)].map Prod.fst) ∨ k ∈ (([] : List (String × Bool)).map Prod.fst)) →
        featLookup [("x", true)] k = featLookup [] k :=
  claim_C2_feature_diff [("x", true)] [] (by decide) (by decide)

/-- Modelled from the spec: `util.GetPrivateRepo` (package `pkg/cluster`,
not under `src/`) — the desired primary private registry of the cluster:
the first private registry of the desired RKE spec, if any. -/
def getPrivateRepo (cluster : Cluster) : Option Registry :=
  match cluster.spec.rkeConfig with
  | some rke => rke.privateRegistries.head?
  | none => none

/-- Modelled from the spec: `taints.GetToDiffTaints` (package `pkg/taints`,
not under `src/`) — structural set difference both ways: `(toAdd, toDel)`
where `toAdd` collects desired taints absent from `current` and `toDel`
collects current taints absent from `desired`. -/
def getToDiffTaints (current desired : List Taint) : List Taint × List Taint :=
  (desired.filter (fun t => decide (t ∉ current)),
   current.filter (fun t => decide (t ∉ desired)))

/-- Embedding of the `forceDeploy` local of `redeployAgent` (line 185): the
force-deploy annotation reads back `"true"`. -/
def forceDeployOf (cluster : Cluster) : Bool :=
  lookupKeyD cluster.annotations AgentForceDeployAnn "" == "true"

/-- Embedding of the `imageChange` local of `redeployAgent` (line 186). -/
def imageChangeOf (cluster : Cluster) (desiredAgent desiredAuth : String) : Bool :=
  cluster.status.agentImage != desiredAgent || cluster.status.authImage != desiredAuth

/-- Embedding of the `repoChange` computation of `redeployAgent` (lines
188-203): evaluated only when the desired and the applied RKE configs are
both present and the applied spec records at least one private registry;
inside that branch the applied first registry is the address of a slice
element and hence never nil, while the desired side may be nil. -/
def repoChangeOf (cluster : Cluster) : Bool :=
  match cluster.spec.rkeConfig with
  | none => false
  | some _ =>
    match cluster.status.appliedSpec.rkeConfig with
    | none => false
    | some appliedRke =>
      if appliedRke.privateRegistries.length > 0 then
        let desiredRepo := getPrivateRepo cluster
        let appliedRepo := appliedRke.privateRegistries.head?
        let structuralDiff :=
          match desiredRepo, appliedRepo with
          | some d, some a => decide (d ≠ a)
          | _, _ => false
        let nilMismatch :=
          (desiredRepo.isNone && appliedRepo.isSome)
            || (desiredRepo.isSome && appliedRepo.isNone)
        structuralDiff || nilMismatch
      else false

/-- Embedding of the cached-image comparison of `redeployAgent` (lines
214-221): the node-agent entry is compared only for the RKE driver, the
cluster-agent entry always. -/
def cachedImageMismatch (cluster : Cluster) (cache : CacheState) : Bool :=
  let na := (getAgentImages cluster.name cache).1
  let ca := (getAgentImages cluster.name cache).2
  (cluster.status.agentImage != na && cluster.status.driver == ClusterDriverRKE)
    || cluster.status.agentImage != ca

/-- Embedding of the taint comparison of `redeployAgent` (lines 225-235):
any non-empty added or removed set against the cached taints. -/
def taintMismatch (cluster : Cluster) (desiredTaints : List Taint) (cache : CacheState) : Bool :=
  let currentTaints := getCachedTaints cluster.name cache
  let toAdd := (getToDiffTaints currentTaints desiredTaints).1
  let toDelete := (getToDiffTaints currentTaints desiredTaints).2
  toAdd.length > 0 || toDelete.length > 0

/-- Embedding of `redeployAgent` (source lines 180-245).  The Go function
reads and clears the two process-wide caches; here the cache is an explicit
argument and result.  The Bool component is the redeploy decision. -/
def redeployAgent (cluster : Cluster) (desiredAgent desiredAuth : String)
    (desiredFeatures : List (String × Bool)) (desiredTaints : List Taint)
    (cache : CacheState) : Bool × CacheState :=
  if !condIsTrue cluster ClusterConditionAgentDeployed then (true, cache)
  else if forceDeployOf cluster || imageChangeOf cluster desiredAgent desiredAuth
      || repoChangeOf cluster
      || agentFeaturesChanged desiredFeatures cluster.status.agentFeatures then
    (true, cache)
  else if cachedImageMismatch cluster cache then
    (true, clearAgentImages cluster.name cache)
  else if taintMismatch cluster desiredTaints cache then
    (true, clearControlPlaneTaints cluster.name cache)
  else if cluster.spec.agentEnvVars ≠ cluster.status.appliedAgentEnvVars then
    (true, cache)
  else (false, cache)

/-- Spec with every field at its zero value. -/
def emptySpec : ClusterSpec :=
  { internal := false, localClusterAuthEndpointEnabled := false,
    desiredAgentImage := "", desiredAuthImage := "", agentImageOverride := "",
    agentEnvVars := [], rkeConfig := none, enableNetworkPolicy := none,
    windowsPreferedCluster := false }

/-- Status with every field at its zero value. -/
def baseStatus : ClusterStatus :=
  { driver := "", agentImage := "", authImage := "", agentFeatures := [],
    appliedAgentEnvVars := [], appliedSpec := emptySpec, conditions := [] }

/-- Cluster with no conditions set (AgentDeployed not yet true). -/
def baseCluster : Cluster :=
  { name := "c", annotations := [], spec := emptySpec, status := baseStatus }

/-- Claim C8: while the AgentDeployed condition is not yet true, the
redeploy decision returns true, regardless of image, feature, taint,
registry and env-var equality and of the force-deploy annotation. -/
theorem claim_C8_first_deploy (cluster : Cluster) (desiredAgent desiredAuth : String)
    (desiredFeatures : List (String × Bool)) (desiredTaints : List Taint)
    (cache : CacheState)
    (h : condIsTrue cluster ClusterConditionAgentDeployed = false) :
    (redeployAgent cluster desiredAgent desiredAuth desiredFeatures desiredTaints cache).1
      = true := by
  simp [redeployAgent, h]

/-- Witness for claim C8 at a concrete cluster with no conditions. -/
theorem claim_C8_first_deploy_witness :
    (redeployAgent baseCluster "a" "b" [("f", true)] [] emptyCache).1 = true :=
  claim_C8_first_deploy baseCluster "a" "b" [("f", true)] [] emptyCache (by decide)

/-- Claim C9: two invocations of the redeploy decision on identical inputs,
with the image and taint caches unchanged between the two calls (the cache
state after the first call equals the state it was given), yield the same
boolean result. -/
theorem claim_C9_idempotent (cluster : Cluster) (desiredAgent desiredAuth : String)
    (desiredFeatures : List (String × Bool)) (desiredTaints : List Taint)
    (cache : CacheState)
    (h : (redeployAgent cluster desiredAgent desiredAuth desiredFeatures desiredTaints cache).2
          = cache) :
    (redeployAgent cluster desiredAgent desiredAuth desiredFeatures desiredTaints
        (redeployAgent cluster desiredAgent desiredAuth desiredFeatures desiredTaints cache).2).1
      = (redeployAgent cluster desiredAgent desiredAuth desiredFeatures desiredTaints cache).1 := by
  rw [h]

/-- Witness for claim C9 at a concrete cluster whose first call leaves the
cache untouched. -/
theorem claim_C9_idempotent_witness :
    (redeployAgent baseCluster "a" "b" [] []
        (redeployAgent baseCluster "a" "b" [] [] emptyCache).2).1
      = (redeployAgent baseCluster "a" "b" [] [] emptyCache).1 :=
  claim_C9_idempotent baseCluster "a" "b" [] [] emptyCache (by decide)

/-- Registry used by the C1 counterexample. -/
def regExample : Registry :=
  { url := "registry.example.com", user := "", password := "" }

/-- Registry recorded by the applied spec in the C1 amended-claim witness. -/
def regApplied : Registry :=
  { url := "registry.applied.example.com", user := "", password := "" }

/-- Desired RKE config carrying one private registry. -/
def rkeDesired : RKEConfig :=
  { authStrategy := "x509", privateRegistries := [regExample], networkPlugin := "" }

/-- Applied RKE config recording no private registry. -/
def rkeAppliedEmpty : RKEConfig :=
  { authStrategy := "x509", privateRegistries := [], networkPlugin := "" }

/-- Applied RKE config recording `regApplied` as its first registry. -/
def rkeAppliedOne : RKEConfig :=
  { authStrategy := "x509", privateRegistries := [regApplied], networkPlugin := "" }

/-- Cluster whose desired spec carries one private registry while the
applied spec carries an RKE config that records no registry. -/
def c1Cluster : Cluster :=
  let appliedSpec := { emptySpec with rkeConfig := some rkeAppliedEmpty }
  { name := "c1", annotations := [],
    spec := { emptySpec with rkeConfig := some rkeDesired },
    status := { baseStatus with appliedSpec := appliedSpec } }

/-- Cluster whose desired spec carries `regExample` and whose applied spec
records `regApplied` as its first private registry. -/
def c1bCluster : Cluster :=
  let appliedSpec := { emptySpec with rkeConfig := some rkeAppliedOne }
  { name := "c1b", annotations := [],
    spec := { emptySpec with rkeConfig := some rkeDesired },
    status := { baseStatus with appliedSpec := appliedSpec } }

/-- Claim C1 counterexample: on `c1Cluster` the desired private registry is
non-nil and the last-applied spec records no private registry, yet
`repoChange` is false — the private-registry diff is evaluated only when
the applied spec records at least one registry. -/
theorem claim_C1_counterexample :
    getPrivateRepo c1Cluster = some regExample
    ∧ (c1Cluster.status.appliedSpec.rkeConfig.map RKEConfig.privateRegistries).getD [] = []
    ∧ repoChangeOf c1Cluster = false := by
  refine ⟨?_, ?_, ?_⟩ <;> decide

/-- Claim C1 (amended): the private-registry diff runs only when both the
desired and the applied RKE configs are present and the applied spec records
at least one private registry; in that case `repoChange` is true exactly
when the desired primary registry differs from the first applied registry
(a nil desired side included).  In every other case — in particular when
the applied spec records no private registry, whatever the desired side,
and when both sides are nil — `repoChange` is false. -/
theorem claim_C1_repo_change_amended (cluster : Cluster) :
    (∀ rkeD, cluster.spec.rkeConfig = some rkeD →
      ∀ rkeA, cluster.status.appliedSpec.rkeConfig = some rkeA →
        ∀ r rest, rkeA.privateRegistries = r :: rest →
          (repoChangeOf cluster = true ↔ getPrivateRepo cluster ≠ some r))
    ∧ ((cluster.spec.rkeConfig = none
        ∨ cluster.status.appliedSpec.rkeConfig = none
        ∨ (cluster.status.appliedSpec.rkeConfig.map RKEConfig.privateRegistries).getD [] = [])
        → repoChangeOf cluster = false) := by
  constructor
  · intro rkeD hD rkeA hA r rest hR
    simp only [repoChangeOf, hD, hA, hR]
    cases hdr : getPrivateRepo cluster with
    | none => simp
    | some d => simp
  · intro h
    cases hS : cluster.spec.rkeConfig with
    | none => simp [repoChangeOf, hS]
    | some rkeD =>
        cases hA : cluster.status.appliedSpec.rkeConfig with
        | none => simp [repoChangeOf, hS, hA]
        | some rkeA =>
            have hreg : rkeA.privateRegistries = [] := by
              rcases h with h | h | h
              · rw [hS] at h
                exact Option.noConfusion h
              · rw [hA] at h
                exact Option.noConfusion h
              · rw [hA] at h
                simpa using h
            simp [repoChangeOf, hS, hA, hreg]

/-- Witness for the amended claim C1: on `c1bCluster` the diff branch is
live and `repoChange` is true exactly when the desired primary registry
differs from the applied one. -/
theorem claim_C1_repo_change_amended_witness :
    repoChangeOf c1bCluster = true ↔ getPrivateRepo c1bCluster ≠ some regApplied :=
  (claim_C1_repo_change_amended c1bCluster).1 rkeDesired rfl rkeAppliedOne rfl
    regApplied [] rfl

/-- Claim C3 counterexample: for the agent-image cache, a cached empty
value is observationally identical to an absent entry — `getAgentImages`
and `agentImagesCached` return the same results on a cache holding `""`
for a cluster and on one with the entry cleared, so the image-cache get
does not distinguish an absent entry from a cached empty string. -/
theorem claim_C3_counterexample :
    getAgentImages "c" (setAgentImagesEntry "c" "" "" emptyCache)
      = getAgentImages "c" (clearAgentImages "c" emptyCache)
    ∧ agentImagesCached "c" (setAgentImagesEntry "c" "" "" emptyCache)
      = agentImagesCached "c" (clearAgentImages "c" emptyCache) := by
  refine ⟨?_, ?_⟩ <;> decide

/-- Claim C3 (amended): the taint cache distinguishes an absent entry from
a cached empty list (the presence check is false after clear and true for a
cached empty list), and after clear an image entry also reads as not
cached; for the image cache, however, a cached empty string is treated like
absence.  After the decision returns true due to a cached-image mismatch
the image-cache entry is absent (both keys deleted), and after it returns
true due to a taint mismatch the taint-cache entry is absent, so the next
read reports unknown and forces re-derivation. -/
theorem claim_C3_cache_invalidation_amended (name : String) (cache : CacheState)
    (cluster : Cluster) (desiredAgent desiredAuth : String)
    (desiredFeatures : List (String × Bool)) (desiredTaints : List Taint) :
    controlPlaneTaintsCached name (clearControlPlaneTaints name cache) = false
    ∧ controlPlaneTaintsCached name (setControlPlaneTaintsEntry name [] cache) = true
    ∧ agentImagesCached name (clearAgentImages name cache) = false
    ∧ (condIsTrue cluster ClusterConditionAgentDeployed = true →
        (forceDeployOf cluster || imageChangeOf cluster desiredAgent desiredAuth
          || repoChangeOf cluster
          || agentFeaturesChanged desiredFeatures cluster.status.agentFeatures) = false →
        cachedImageMismatch cluster cache = true →
        redeployAgent cluster desiredAgent desiredAuth desiredFeatures desiredTaints cache
            = (true, clearAgentImages cluster.name cache)
        ∧ lookupKey (clearAgentImages cluster.name cache).nodeImages cluster.name = none
        ∧ lookupKey (clearAgentImages cluster.name cache).clusterImages cluster.name = none)
    ∧ (condIsTrue cluster ClusterConditionAgentDeployed = true →
        (forceDeployOf cluster || imageChangeOf cluster desiredAgent desiredAuth
          || repoChangeOf cluster
          || agentFeaturesChanged desiredFeatures cluster.status.agentFeatures) = false →
        cachedImageMismatch cluster cache = false →
        taintMismatch cluster desiredTaints cache = true →
        redeployAgent cluster desiredAgent desiredAuth desiredFeatures desiredTaints cache
            = (true, clearControlPlaneTaints cluster.name cache)
        ∧ controlPlaneTaintsCached cluster.name (clearControlPlaneTaints cluster.name cache)
            = false) := by
  refine ⟨?_, ?_, ?_, ?_, ?_⟩
  · simp [controlPlaneTaintsCached, clearControlPlaneTaints, lookupKey_eraseKey_self]
  · simp [controlPlaneTaintsCached, setControlPlaneTaintsEntry, lookupKey_insertKey_self]
  · simp [agentImagesCached, getAgentImages, clearAgentImages, lookupKeyD,
      lookupKey_eraseKey_self]
  · intro h1 h2 h3
    refine ⟨?_, ?_, ?_⟩
    · simp [redeployAgent, h1, h2, h3]
    · simp [clearAgentImages, lookupKey_eraseKey_self]
    · simp [clearAgentImages, lookupKey_eraseKey_self]
  · intro h1 h2 h3 h4
    refine ⟨?_, ?_⟩
    · simp [redeployAgent, h1, h2, h3, h4]
    · simp [controlPlaneTaintsCached, clearControlPlaneTaints, lookupKey_eraseKey_self]

/-- Cluster for the C3 witness: AgentDeployed is true, images in status
match the desired ones, no force annotation, no registries, no features. -/
def c3Cluster : Cluster :=
  let agentDeployedCond : Condition :=
    { condType := "AgentDeployed", status := "True", message := "" }
  let status := { baseStatus with agentImage := "img", conditions := [agentDeployedCond] }
  { name := "c3", annotations := [], spec := emptySpec, status := status }

/-- Cache for the C3 witness: the cluster-agent entry disagrees with the
recorded status image. -/
def c3Cache : CacheState :=
  { nodeImages := [], clusterImages := [("c3", "other")], controlPlaneTaints := [] }

/-- Witness for the amended claim C3: on `c3Cluster` the decision fires on
the cached-image mismatch, clears the image cache, and both image entries
for the cluster are absent afterwards. -/
theorem claim_C3_cache_invalidation_amended_witness :
    redeployAgent c3Cluster "img" "" [] [] c3Cache
        = (true, clearAgentImages c3Cluster.name c3Cache)
    ∧ lookupKey (clearAgentImages c3Cluster.name c3Cache).nodeImages c3Cluster.name = none
    ∧ lookupKey (clearAgentImages c3Cluster.name c3Cache).clusterImages c3Cluster.name = none :=
  (claim_C3_cache_invalidation_amended "c3" c3Cache c3Cluster "img" "" [] []).2.2.2.1
    (by decide) (by decide) (by decide)

/-- Embedding of a node (`v3.Node`): display name, status labels, and the
taints of its internal node spec. -/
structure Node where
  nodeName : String
  nodeLabels : List (String × String)
  taints : List Taint
deriving DecidableEq

/-- The `controlPlaneLabels` map of the source (lines 50-54). -/
def controlPlaneLabels : List (String × String) :=
  [("node-role.kubernetes.io/master", "true"),
   ("node-role.kubernetes.io/controlplane", "true"),
   ("node-role.kubernetes.io/control-plane", "true")]

/-- Embedding of the control-plane filter inside `getControlPlaneTaints`
(lines 550-562): the node carries at least one recognized control-plane
label with the expected value. -/
def isControlPlaneNode (node : Node) : Bool :=
  controlPlaneLabels.any fun kv =>
    match lookupKey node.nodeLabels kv.1 with
    | some v => v == kv.2
    | none => false

/-- Embedding of `getControlPlaneTaints` (lines 541-578), the node listing
replaced by the node-list argument: accumulate over the control-plane nodes
the taints not yet collected, skipping any taint whose key carries the
reserved `node.kubernetes.io` prefix. -/
def getControlPlaneTaints (nodes : List Node) : List Taint :=
  nodes.foldl
    (fun allTaints node =>
      if isControlPlaneNode node then
        let toAdd := (getToDiffTaints allTaints node.taints).1
        allTaints ++ toAdd.filter (fun t => !(t.key.startsWith "node.kubernetes.io"))
      else allTaints)
    []

/-- Embedding of the kubectl-apply retry loop of `deployAgent` (lines
301-313).  `apply i` is the outcome (captured output, error) the remote API
yields on attempt `i`; the Go loop runs `i` from 0 while `i < 5`, breaking
on the first success.  `fuel` counts the remaining iterations; `out` and
`err` carry the loop variables.  The result is (number of attempts
performed, final output, final error). -/
def applyIter (apply : Nat → String × Option String) :
    Nat → Nat → String → Option String → Nat × String × Option String
  | _, 0, out, err => (0, out, err)
  | i, fuel + 1, _, _ =>
    let r := apply i
    match r.2 with
    | none => (1, r.1, none)
    | some e =>
      let rest := applyIter apply (i + 1) fuel r.1 (some e)
      (rest.1 + 1, rest.2)

/-- Outcomes of the external collaborators during one reconcile pass:
settings-based image resolution, node listing, credential and
manifest-render outcomes, per-attempt kubectl-apply outcomes, the two
kubectl-delete outcomes, the remote agent-image reads behind
`cacheAgentImages` (`getNodeAgentImage` and `getClusterAgentImage`, which
return the image or the empty string when the workload is missing), the
system-account creation outcome and the cluster write-back outcome. -/
structure Env where
  resolvedAgentImage : String
  resolvedAuthImage : String
  nodesResult : Except String (List Node)
  kubeConfigErr : Option String
  yamlErr : Option String
  apply : Nat → String × Option String
  deleteAuthDS : String × Option String
  deleteNodeDS : String × Option String
  nodeAgentImage : Except String String
  clusterAgentImage : Except String String
  createSystemAccountErr : Option String
  updateErr : Option String

/-- Error taxonomy of a reconcile pass.  `applyFailed` and `deleteFailed`
are the composite errors built in Go from the underlying error together
with the captured command output; both components are carried. -/
inductive DeployErr where
  | nodesErr (e : String)
  | sysAccountErr (e : String)
  | cacheErr (e : String)
  | credentialErr (e : String)
  | renderErr (e : String)
  | applyFailed (underlying output : String)
  | deleteFailed (underlying output : String)
  | updateFailed (e : String)
deriving DecidableEq

/-- Character-list substring scan: does `pat` occur (contiguously) in `l`? -/
def containsSub (pat : List Char) : List Char → Bool
  | [] => pat.isEmpty
  | c :: rest => if pat.isPrefixOf (c :: rest) then true else containsSub pat rest

/-- Go `strings.Contains`: `pat` is a substring of `s`. -/
def strContains (s pat : String) : Bool :=
  containsSub pat.data s.data

/-- Go `strings.Replace(s, pat, rep, 1)`: replace the first occurrence; an
empty pattern inserts the replacement at the start. -/
def replaceFirst (s pat rep : String) : String :=
  if pat == "" then rep ++ s
  else
    match s.splitOn pat with
    | [] => s
    | [_] => s
    | a :: rest => a ++ rep ++ String.intercalate pat rest

/-- Embedding of `formatKubectlApplyOutput` (lines 580-590): collapse
newlines to spaces, then redact the first captured token value — the text
between the first occurrence of the token marker and the next quote. -/
def formatKubectlApplyOutput (log : String) : String :=
  let log := String.replace log "\n" " "
  match log.splitOn "\"token\":\"" with
  | _ :: afterMarker :: _ =>
    match afterMarker.splitOn "\"" with
    | tok :: _ :: _ => replaceFirst log tok "REDACTED"
    | _ => log
  | _ => log

/-- Not-found message checked after the kube-api-auth DaemonSet deletion
(line 324). -/
def authDSNotFound : String := "daemonsets.apps \"kube-api-auth\" not found"

/-- Not-found message checked after the cattle-node-agent DaemonSet
deletion (line 334). -/
def nodeDSNotFound : String := "daemonsets.apps \"cattle-node-agent\" not found"

/-- Embedding of `getDesiredImage` (lines 247-253). -/
def getDesiredImage (cluster : Cluster) : String :=
  if cluster.spec.agentImageOverride != "" then cluster.spec.agentImageOverride
  else cluster.spec.desiredAgentImage

/-- Condition guarding the kube-api-auth DaemonSet deletion (line 318): the
local auth endpoint is disabled in the desired spec, was enabled in the
applied spec, and an auth image is recorded. -/
def authDeleteCond (cluster : Cluster) : Bool :=
  !cluster.spec.localClusterAuthEndpointEnabled
    && cluster.status.appliedSpec.localClusterAuthEndpointEnabled
    && cluster.status.authImage != ""

/-- The kube-api-auth deletion is attempted and fails with an error whose
output does not carry the not-found message. -/
def authDeleteHardFails (env : Env) (cluster : Cluster) : Bool :=
  authDeleteCond cluster && (env.deleteAuthDS.2).isSome
    && !strContains env.deleteAuthDS.1 authDSNotFound

/-- Embedding of the state commit of `deployAgent` (lines 351-363). -/
def commitState (cluster : Cluster) (desiredAgent desiredAuth : String)
    (desiredFeatures : List (String × Bool)) : Cluster :=
  let st1 := { cluster.status with agentImage := desiredAgent, agentFeatures := desiredFeatures }
  let c1 := { cluster with status := st1 }
  let c2 :=
    if c1.spec.desiredAgentImage == "fixed" then
      let sp := { c1.spec with desiredAgentImage := desiredAgent }
      { c1 with spec := sp }
    else c1
  let c3 := { c2 with status := { c2.status with authImage := desiredAuth } }
  let c4 :=
    if c3.spec.desiredAuthImage == "fixed" then
      let sp := { c3.spec with desiredAuthImage := desiredAuth }
      { c3 with spec := sp }
    else c3
  let c5 :=
    if lookupKeyD c4.annotations AgentForceDeployAnn "" == "true" then
      { c4 with annotations := insertKey c4.annotations AgentForceDeployAnn "false" }
    else c4
  { c5 with status := { c5.status with appliedAgentEnvVars := c5.spec.agentEnvVars } }

/-- Observable outcome of one `deployAgent` call: the updated cluster copy,
the updated caches, the returned error, how many kubectl-apply attempts
ran, whether the apply step succeeded, and which companion-resource
deletions were attempted. -/
structure DeployResult where
  cluster : Cluster
  cache : CacheState
  err : Option DeployErr
  applyAttempts : Nat
  applySucceeded : Bool
  authDeleteAttempted : Bool
  nodeDeleteAttempted : Bool
deriving DecidableEq

/-- Embedding of the part of `deployAgent` that runs after a successful
manifest apply (lines 317-342 inside the condition wrapper, and the state
commit and cache refresh of lines 347-365): record the apply output as the
condition message, conditionally delete the kube-api-auth DaemonSet,
conditionally delete the cattle-node-agent DaemonSet (swallowing not-found
outputs, escalating other deletion errors as composite errors), mark the
condition, refresh the image cache from the remote reads and commit the new
observed state.  `attempts` and `out` are the attempt count and final
output of the apply loop. -/
def deployAgentFinish (env : Env) (cluster : Cluster) (cache : CacheState)
    (desiredAgent desiredAuth : String) (desiredFeatures : List (String × Bool))
    (attempts : Nat) (out : String) : DeployResult :=
  let cluster1 := setCondMessage cluster ClusterConditionAgentDeployed out
  let authAttempt := authDeleteCond cluster
  let dAuth := if authAttempt then env.deleteAuthDS else (out, none)
  if dAuth.2.isSome && !strContains dAuth.1 authDSNotFound then
    ⟨setCondStatus cluster1 ClusterConditionAgentDeployed "False", cache,
      some (.deleteFailed (dAuth.2.getD "") dAuth.1), attempts, true, authAttempt, false⟩
  else
    let nodeAttempt := cluster.status.driver != ClusterDriverRKE
    let dNode := if nodeAttempt then env.deleteNodeDS else (dAuth.1, none)
    if nodeAttempt && dNode.2.isSome && !strContains dNode.1 nodeDSNotFound then
      ⟨setCondStatus cluster1 ClusterConditionAgentDeployed "False", cache,
        some (.deleteFailed (dNode.2.getD "") dNode.1), attempts, true, authAttempt,
        nodeAttempt⟩
    else
      let cluster2 := setCondMessage cluster1 ClusterConditionAgentDeployed dNode.1
      let cluster3 := setCondStatus cluster2 ClusterConditionAgentDeployed "True"
      match env.nodeAgentImage with
      | .error e =>
        ⟨cluster3, cache, some (.cacheErr e), attempts, true, authAttempt, nodeAttempt⟩
      | .ok na =>
        match env.clusterAgentImage with
        | .error e =>
          ⟨cluster3, cache, some (.cacheErr e), attempts, true, authAttempt, nodeAttempt⟩
        | .ok ca =>
          let cache2 := setAgentImagesEntry cluster3.name na ca cache
          let cluster4 := commitState cluster3 desiredAgent desiredAuth desiredFeatures
          ⟨cluster4, cache2, none, attempts, true, authAttempt, nodeAttempt⟩

/-- Embedding of `deployAgent` (lines 255-366).  The node listing inside
`getControlPlaneTaints` and every remote call go through `env`; the
condition wrapper `ClusterConditionAgentDeployed.Do` is inlined: the
condition becomes true on success of the wrapped action and not-true with
the error otherwise (modelled from the spec, the wrapper itself is library
code outside this repository).  The deletion guards read spec/status fields
from the input cluster: the Go code reads them from the object after the
condition message was set, which leaves those fields untouched. -/
def deployAgent (env : Env) (cluster : Cluster) (cache : CacheState) : DeployResult :=
  if cluster.spec.internal then ⟨cluster, cache, none, 0, false, false, false⟩
  else
    let desiredAgent0 := getDesiredImage cluster
    let desiredAgent :=
      if desiredAgent0 == "" || desiredAgent0 == "fixed" then env.resolvedAgentImage
      else desiredAgent0
    let desiredAuth :=
      if cluster.spec.localClusterAuthEndpointEnabled then
        if cluster.spec.desiredAuthImage == "" || cluster.spec.desiredAuthImage == "fixed" then
          env.resolvedAuthImage
        else cluster.spec.desiredAuthImage
      else ""
    let desiredFeatures : List (String × Bool) := []
    match env.nodesResult with
    | .error e => ⟨cluster, cache, some (.nodesErr e), 0, false, false, false⟩
    | .ok nodes =>
      let desiredTaints := getControlPlaneTaints nodes
      let rd := redeployAgent cluster desiredAgent desiredAuth desiredFeatures desiredTaints cache
      if !rd.1 then ⟨cluster, rd.2, none, 0, false, false, false⟩
      else
        match env.kubeConfigErr with
        | some e => ⟨cluster, rd.2, some (.credentialErr e), 0, false, false, false⟩
        | none =>
          match env.yamlErr with
          | some e =>
            ⟨setCondStatus cluster ClusterConditionAgentDeployed "False", rd.2,
              some (.renderErr e), 0, false, false, false⟩
          | none =>
            let ar := applyIter env.apply 0 5 "" none
            match ar.2.2 with
            | some e =>
              ⟨setCondStatus cluster ClusterConditionAgentDeployed "False", rd.2,
                some (.applyFailed e (formatKubectlApplyOutput ar.2.1)), ar.1, false, false, false⟩
            | none =>
              deployAgentFinish env cluster rd.2 desiredAgent desiredAuth desiredFeatures
                ar.1 ar.2.1

theorem applyIter_le (apply : Nat → String × Option String) :
    ∀ (fuel i : Nat) (out : String) (err : Option String),
      (applyIter apply i fuel out err).1 ≤ fuel := by
  intro fuel
  induction fuel with
  | zero => intro i out err; simp [applyIter]
  | succ f ih =>
      intro i out err
      simp only [applyIter]
      cases h : (apply i).2 with
      | none => simp [h]
      | some e =>
          simp only [h]
          have := ih (i + 1) (apply i).1 (some e)
          omega

theorem applyIter_first_success (apply : Nat → String × Option String) :
    ∀ (fuel k i : Nat) (out : String) (err : Option String),
      k < fuel → (apply (i + k)).2 = none →
      (∀ j, j < k → (apply (i + j)).2 ≠ none) →
      (applyIter apply i fuel out err).1 = k + 1
      ∧ (applyIter apply i fuel out err).2.2 = none := by
  intro fuel
  induction fuel with
  | zero => intro k i out err hk; omega
  | succ f ih =>
      intro k i out err hk hsucc hfail
      simp only [applyIter]
      cases h : (apply i).2 with
      | none =>
          have hk0 : k = 0 := by
            by_contra hne
            exact (hfail 0 (Nat.pos_of_ne_zero hne)) (by simpa using h)
          subst hk0
          simp [h]
      | some e =>
          have hkpos : k ≠ 0 := by
            intro h0
            subst h0
            rw [Nat.add_zero] at hsucc
            rw [h] at hsucc
            exact Option.noConfusion hsucc
          obtain ⟨k2, rfl⟩ : ∃ k2, k = k2 + 1 := ⟨k - 1, by omega⟩
          have hsucc2 : (apply (i + 1 + k2)).2 = none := by
            have : i + 1 + k2 = i + (k2 + 1) := by omega
            rw [this]; exact hsucc
          have hfail2 : ∀ j, j < k2 → (apply (i + 1 + j)).2 ≠ none := by
            intro j hj
            have : i + 1 + j = i + (j + 1) := by omega
            rw [this]
            exact hfail (j + 1) (by omega)
          have hrec := ih k2 (i + 1) (apply i).1 (some e) (by omega) hsucc2 hfail2
          simp only [h]
          exact ⟨by simp [hrec.1], by simp [hrec.2]⟩

theorem applyIter_all_fail (apply : Nat → String × Option String) :
    ∀ (fuel i : Nat) (out : String) (err : Option String),
      0 < fuel → (∀ j, j < fuel → (apply (i + j)).2 ≠ none) →
      (applyIter apply i fuel out err).1 = fuel
      ∧ (applyIter apply i fuel out err).2.2.isSome = true := by
  intro fuel
  induction fuel with
  | zero => intro i out err h; omega
  | succ f ih =>
      intro i out err _ hfail
      simp only [applyIter]
      cases h : (apply i).2 with
      | none => exact absurd h (by simpa using hfail 0 (by omega))
      | some e =>
          simp only [h]
          cases f with
          | zero => simp [applyIter]
          | succ f2 =>
              have hfail2 : ∀ j, j < f2 + 1 → (apply (i + 1 + j)).2 ≠ none := by
                intro j hj
                have : i + 1 + j = i + (j + 1) := by omega
                rw [this]
                exact hfail (j + 1) (by omega)
              have hrec := ih (i + 1) (apply i).1 (some e) (by omega) hfail2
              exact ⟨by simp [hrec.1], by simp [hrec.2]⟩

theorem applyIter_err_imp_all_fail (apply : Nat → String × Option String) :
    ∀ (fuel i : Nat) (out : String),
      (applyIter apply i fuel out none).2.2.isSome = true →
      ∀ j, j < fuel → (apply (i + j)).2 ≠ none := by
  intro fuel
  induction fuel with
  | zero => intro i out h; simp [applyIter] at h
  | succ f ih =>
      intro i out h j hj
      simp only [applyIter] at h
      cases hap : (apply i).2 with
      | none => rw [hap] at h; simp at h
      | some e =>
          rw [hap] at h
          simp only at h
          cases hjz : j with
          | zero => simp [hap]
          | succ j2 =>
              have hfpos : 0 < f := by omega
              have hirrel : applyIter apply (i + 1) f (apply i).1 (some e)
                  = applyIter apply (i + 1) f (apply i).1 none := by
                cases f with
                | zero => omega
                | succ f2 => rfl
              rw [hirrel] at h
              have := ih (i + 1) (apply i).1 h j2 (by omega)
              have harith : i + 1 + j2 = i + (j2 + 1) := by omega
              rw [harith] at this
              exact this

/-- Claim C6: the apply loop performs at most 5 attempts; success on
attempt `k` (0-indexed, the earlier attempts failing) stops the loop after
exactly `k + 1` attempts with no error; when all 5 attempts fail the loop
runs exactly 5 attempts and ends with the error that `deployAgent`
escalates; conversely an error is left only when all 5 attempts failed. -/
theorem claim_C6_apply_retry_bound (apply : Nat → String × Option String) :
    (applyIter apply 0 5 "" none).1 ≤ 5
    ∧ (∀ k, k < 5 → (apply k).2 = none → (∀ j, j < k → (apply j).2 ≠ none) →
        (applyIter apply 0 5 "" none).1 = k + 1
        ∧ (applyIter apply 0 5 "" none).2.2 = none)
    ∧ ((∀ j, j < 5 → (apply j).2 ≠ none) →
        (applyIter apply 0 5 "" none).1 = 5
        ∧ (applyIter apply 0 5 "" none).2.2.isSome = true)
    ∧ ((applyIter apply 0 5 "" none).2.2.isSome = true →
        ∀ j, j < 5 → (apply j).2 ≠ none) := by
  refine ⟨applyIter_le apply 5 0 "" none, ?_, ?_, ?_⟩
  · intro k hk hsucc hfail
    exact applyIter_first_success apply 5 k 0 "" none hk (by simpa using hsucc)
      (by intro j hj; simpa using hfail j hj)
  · intro hfail
    exact applyIter_all_fail apply 5 0 "" none (by omega)
      (by intro j hj; simpa using hfail j hj)
  · intro h j hj
    have := applyIter_err_imp_all_fail apply 5 0 "" h j hj
    simpa using this

/-- Witness for claim C6: with a remote that fails the first two attempts
and succeeds on the third, the loop performs exactly 3 attempts and leaves
no error. -/
theorem claim_C6_apply_retry_bound_witness :
    (applyIter (fun i => if i < 2 then ("boom", some "fail") else ("ok", none)) 0 5 "" none).1
        = 3
    ∧ (applyIter (fun i => if i < 2 then ("boom", some "fail") else ("ok", none)) 0 5 "" none).2.2
        = none :=
  (claim_C6_apply_retry_bound (fun i => if i < 2 then ("boom", some "fail") else ("ok", none))).2.1
    2 (by decide) (by decide) (by intro j hj; interval_cases j <;> decide)

/-- Claim C10: for a cluster marked internal, `deployAgent` returns success
immediately and nothing is observed or changed: the cluster copy and the
caches are returned as given, no error, no apply attempt, no deletion
attempt. -/
theorem claim_C10_internal_noop (env : Env) (cluster : Cluster) (cache : CacheState)
    (h : cluster.spec.internal = true) :
    deployAgent env cluster cache = ⟨cluster, cache, none, 0, false, false, false⟩ := by
  unfold deployAgent
  simp [h]

/-- Environment in which every external call succeeds on first try. -/
def happyEnv : Env :=
  { resolvedAgentImage := "agent:v1", resolvedAuthImage := "auth:v1",
    nodesResult := .ok [], kubeConfigErr := none, yamlErr := none,
    apply := fun _ => ("applied", none),
    deleteAuthDS := ("", none), deleteNodeDS := ("", none),
    nodeAgentImage := .ok "agent:v1", clusterAgentImage := .ok "agent:v1",
    createSystemAccountErr := none, updateErr := none }

/-- The local cluster: marked internal in its spec. -/
def internalCluster : Cluster :=
  let sp := { emptySpec with internal := true }
  { name := "local", annotations := [], spec := sp, status := baseStatus }

/-- Witness for claim C10 at the local cluster in the all-success
environment. -/
theorem claim_C10_internal_noop_witness :
    deployAgent happyEnv internalCluster emptyCache
      = ⟨internalCluster, emptyCache, none, 0, false, false, false⟩ :=
  claim_C10_internal_noop happyEnv internalCluster emptyCache rfl


/-- The cattle-node-agent deletion is attempted and fails with an error
whose output does not carry the not-found message. -/
def nodeDeleteHardFails (env : Env) (cluster : Cluster) : Bool :=
  (cluster.status.driver != ClusterDriverRKE) && (env.deleteNodeDS.2).isSome
    && !strContains env.deleteNodeDS.1 nodeDSNotFound

/-- Cluster for the C4 counterexample: not internal, RKE driver, local auth
endpoint disabled both in the desired and in the applied spec, AgentDeployed
not yet true (so the decision is a redeploy). -/
def c4Cluster : Cluster :=
  let status := { baseStatus with driver := "rke" }
  { name := "c4", annotations := [], spec := emptySpec, status := status }

/-- Claim C4 counterexample: on `c4Cluster` in the all-success environment
the manifest apply succeeds, yet deletion of the auxiliary authentication
workload is not attempted — it is guarded by the auth-endpoint transition,
not unconditional. -/
theorem claim_C4_counterexample :
    (deployAgent happyEnv c4Cluster emptyCache).applySucceeded = true
    ∧ (deployAgent happyEnv c4Cluster emptyCache).authDeleteAttempted = false := by
  refine ⟨?_, ?_⟩ <;> decide

/-- Claim C4 (amended): after a successful manifest apply — that is, in the
post-apply phase, which `deployAgent` enters exactly when the apply loop
ends without error — deletion of the auxiliary authentication workload is
attempted exactly when the local auth endpoint is disabled in the desired
spec, was enabled in the applied spec and an auth image is recorded; and,
whenever that deletion did not fail hard, deletion of the legacy node-level
workload is attempted exactly when the cluster driver is not the default
(RKE) driver. -/
theorem claim_C4_companion_deletion_amended (env : Env) (cluster : Cluster)
    (cache : CacheState) (desiredAgent desiredAuth : String)
    (desiredFeatures : List (String × Bool)) (attempts : Nat) (out : String) :
    (deployAgentFinish env cluster cache desiredAgent desiredAuth desiredFeatures
        attempts out).applySucceeded = true
    ∧ (deployAgentFinish env cluster cache desiredAgent desiredAuth desiredFeatures
        attempts out).authDeleteAttempted = authDeleteCond cluster
    ∧ (authDeleteHardFails env cluster = false →
        (deployAgentFinish env cluster cache desiredAgent desiredAuth desiredFeatures
            attempts out).nodeDeleteAttempted
          = (cluster.status.driver != ClusterDriverRKE)) := by
  simp only [deployAgentFinish]
  cases hAtt : authDeleteCond cluster with
  | true =>
      simp only [reduceIte]
      by_cases hHard : (env.deleteAuthDS.2.isSome
          && !strContains env.deleteAuthDS.1 authDSNotFound) = true
      · rw [if_pos hHard]
        refine ⟨rfl, rfl, fun hh => ?_⟩
        have hhard2 : authDeleteHardFails env cluster = true := by
          simp only [authDeleteHardFails, hAtt, Bool.true_and]
          exact hHard
        rw [hhard2] at hh
        exact Bool.noConfusion hh
      · rw [if_neg hHard]
        by_cases hDrv : (cluster.status.driver != ClusterDriverRKE) = true
        · rw [if_pos hDrv]
          by_cases hN : (cluster.status.driver != ClusterDriverRKE
              && env.deleteNodeDS.2.isSome
              && !strContains env.deleteNodeDS.1 nodeDSNotFound) = true
          · rw [if_pos hN]
            exact ⟨rfl, rfl, fun _ => rfl⟩
          · rw [if_neg hN]
            cases hna : env.nodeAgentImage with
            | error e => exact ⟨rfl, rfl, fun _ => rfl⟩
            | ok na =>
                cases hca : env.clusterAgentImage with
                | error e => exact ⟨rfl, rfl, fun _ => rfl⟩
                | ok ca => exact ⟨rfl, rfl, fun _ => rfl⟩
        · have hDrvb : (cluster.status.driver != ClusterDriverRKE) = false := by
            simpa using hDrv
          cases hna : env.nodeAgentImage with
          | error e => simp [hDrvb]
          | ok na =>
              cases hca : env.clusterAgentImage with
              | error e => simp [hDrvb]
              | ok ca => simp [hDrvb]
  | false =>
      simp only [Bool.false_eq_true, if_false]
      have hHn : ¬((((out, none) : String × Option String)).2.isSome
          && !strContains (((out, none) : String × Option String)).1 authDSNotFound) = true := by
        simp
      rw [if_neg hHn]
      by_cases hDrv : (cluster.status.driver != ClusterDriverRKE) = true
      · rw [if_pos hDrv]
        by_cases hN : (cluster.status.driver != ClusterDriverRKE
            && env.deleteNodeDS.2.isSome
            && !strContains env.deleteNodeDS.1 nodeDSNotFound) = true
        · rw [if_pos hN]
          exact ⟨rfl, rfl, fun _ => rfl⟩
        · rw [if_neg hN]
          cases hna : env.nodeAgentImage with
          | error e => exact ⟨rfl, rfl, fun _ => rfl⟩
          | ok na =>
              cases hca : env.clusterAgentImage with
              | error e => exact ⟨rfl, rfl, fun _ => rfl⟩
              | ok ca => exact ⟨rfl, rfl, fun _ => rfl⟩
      · have hDrvb : (cluster.status.driver != ClusterDriverRKE) = false := by
          simpa using hDrv
        cases hna : env.nodeAgentImage with
        | error e => simp [hDrvb]
        | ok na =>
            cases hca : env.clusterAgentImage with
            | error e => simp [hDrvb]
            | ok ca => simp [hDrvb]

/-- Cluster for the C4 amended-claim witness: like `c4Cluster`, with a
non-RKE driver so the node-level deletion is attempted. -/
def c4bCluster : Cluster :=
  let status := { baseStatus with driver := "imported" }
  { name := "c4b", annotations := [], spec := emptySpec, status := status }

/-- Witness for the amended claim C4: on `c4bCluster` in the all-success
environment the auth deletion did not fail hard, and the node-level
deletion is attempted because the driver is not RKE. -/
theorem claim_C4_companion_deletion_amended_witness :
    (deployAgentFinish happyEnv c4bCluster emptyCache "a" "" [] 1 "ok").nodeDeleteAttempted
      = (c4bCluster.status.driver != ClusterDriverRKE) :=
  (claim_C4_companion_deletion_amended happyEnv c4bCluster emptyCache "a" "" [] 1 "ok").2.2
    (by decide)

/-- Claim C7: for companion-resource deletions attempted after a successful
apply, an error whose output carries the not-found message is swallowed
(the result carries no deletion error), while any other deletion error is
escalated as a composite error carrying both the underlying error and the
command output. -/
theorem claim_C7_delete_not_found_handling (env : Env) (cluster : Cluster)
    (cache : CacheState) (desiredAgent desiredAuth : String)
    (desiredFeatures : List (String × Bool)) (attempts : Nat) (out : String) :
    (authDeleteCond cluster = true →
      env.deleteAuthDS.2.isSome = true →
      strContains env.deleteAuthDS.1 authDSNotFound = false →
      (deployAgentFinish env cluster cache desiredAgent desiredAuth desiredFeatures
          attempts out).err
        = some (.deleteFailed (env.deleteAuthDS.2.getD "") env.deleteAuthDS.1))
    ∧ (authDeleteHardFails env cluster = false →
        (cluster.status.driver != ClusterDriverRKE) = true →
        env.deleteNodeDS.2.isSome = true →
        strContains env.deleteNodeDS.1 nodeDSNotFound = false →
        (deployAgentFinish env cluster cache desiredAgent desiredAuth desiredFeatures
            attempts out).err
          = some (.deleteFailed (env.deleteNodeDS.2.getD "") env.deleteNodeDS.1))
    ∧ (authDeleteHardFails env cluster = false →
        nodeDeleteHardFails env cluster = false →
        ∀ e o, (deployAgentFinish env cluster cache desiredAgent desiredAuth desiredFeatures
            attempts out).err ≠ some (.deleteFailed e o)) := by
  simp only [deployAgentFinish]
  cases hAtt : authDeleteCond cluster with
  | true =>
      simp only [reduceIte]
      by_cases hHard : (env.deleteAuthDS.2.isSome
          && !strContains env.deleteAuthDS.1 authDSNotFound) = true
      · rw [if_pos hHard]
        have hhard2 : authDeleteHardFails env cluster = true := by
          simp only [authDeleteHardFails, hAtt, Bool.true_and]
          exact hHard
        refine ⟨fun _ _ _ => rfl, fun hh => ?_, fun hh => ?_⟩
        · rw [hhard2] at hh; exact Bool.noConfusion hh
        · rw [hhard2] at hh; exact Bool.noConfusion hh
      · rw [if_neg hHard]
        by_cases hDrv : (cluster.status.driver != ClusterDriverRKE) = true
        · rw [if_pos hDrv]
          by_cases hN : (cluster.status.driver != ClusterDriverRKE
              && env.deleteNodeDS.2.isSome
              && !strContains env.deleteNodeDS.1 nodeDSNotFound) = true
          · rw [if_pos hN]
            refine ⟨?_, ?_, ?_⟩
            · intro _ hSome hNc
              exact absurd (by simp [hSome, hNc]) hHard
            · intro _ _ _ _
              rfl
            · intro _ hnhard
              have hnh : nodeDeleteHardFails env cluster = true := hN
              rw [hnh] at hnhard
              exact Bool.noConfusion hnhard
          · rw [if_neg hN]
            cases hna : env.nodeAgentImage with
            | error e =>
                refine ⟨?_, ?_, ?_⟩
                · intro _ hSome hNc
                  exact absurd (by simp [hSome, hNc]) hHard
                · intro _ _ hSome hNc
                  exact absurd (by simp [hDrv, hSome, hNc]) hN
                · intro _ _ e2 o2
                  simp
            | ok na =>
                cases hca : env.clusterAgentImage with
                | error e =>
                    refine ⟨?_, ?_, ?_⟩
                    · intro _ hSome hNc
                      exact absurd (by simp [hSome, hNc]) hHard
                    · intro _ _ hSome hNc
                      exact absurd (by simp [hDrv, hSome, hNc]) hN
                    · intro _ _ e2 o2
                      simp
                | ok ca =>
                    refine ⟨?_, ?_, ?_⟩
                    · intro _ hSome hNc
                      exact absurd (by simp [hSome, hNc]) hHard
                    · intro _ _ hSome hNc
                      exact absurd (by simp [hDrv, hSome, hNc]) hN
                    · intro _ _ e2 o2
                      simp
        · have hDrvb : (cluster.status.driver != ClusterDriverRKE) = false := by
            simpa using hDrv
          simp only [hDrvb, Bool.false_and, Bool.false_eq_true, if_false]
          cases hna : env.nodeAgentImage with
          | error e =>
              refine ⟨?_, ?_, ?_⟩
              · intro _ hSome hNc
                exact absurd (by simp [hSome, hNc]) hHard
              · intro _ h2
                exact h2.elim
              · intro _ _ e2 o2
                simp
          | ok na =>
              cases hca : env.clusterAgentImage with
              | error e =>
                  refine ⟨?_, ?_, ?_⟩
                  · intro _ hSome hNc
                    exact absurd (by simp [hSome, hNc]) hHard
                  · intro _ h2
                    exact h2.elim
                  · intro _ _ e2 o2
                    simp
              | ok ca =>
                  refine ⟨?_, ?_, ?_⟩
                  · intro _ hSome hNc
                    exact absurd (by simp [hSome, hNc]) hHard
                  · intro _ h2
                    exact h2.elim
                  · intro _ _ e2 o2
                    simp
  | false =>
      simp only [Bool.false_eq_true, if_false]
      have hHn : ¬((((out, none) : String × Option String)).2.isSome
          && !strContains (((out, none) : String × Option String)).1 authDSNotFound) = true := by
        simp
      rw [if_neg hHn]
      by_cases hDrv : (cluster.status.driver != ClusterDriverRKE) = true
      · rw [if_pos hDrv]
        by_cases hN : (cluster.status.driver != ClusterDriverRKE
            && env.deleteNodeDS.2.isSome
            && !strContains env.deleteNodeDS.1 nodeDSNotFound) = true
        · rw [if_pos hN]
          refine ⟨?_, ?_, ?_⟩
          · intro h2
            exact h2.elim
          · intro _ _ _ _
            rfl
          · intro _ hnhard
            have hnh : nodeDeleteHardFails env cluster = true := hN
            rw [hnh] at hnhard
            exact Bool.noConfusion hnhard
        · rw [if_neg hN]
          cases hna : env.nodeAgentImage with
          | error e =>
              refine ⟨?_, ?_, ?_⟩
              · intro h2
                exact h2.elim
              · intro _ _ hSome hNc
                exact absurd (by simp [hDrv, hSome, hNc]) hN
              · intro _ _ e2 o2
                simp
          | ok na =>
              cases hca : env.clusterAgentImage with
              | error e =>
                  refine ⟨?_, ?_, ?_⟩
                  · intro h2
                    exact h2.elim
                  · intro _ _ hSome hNc
                    exact absurd (by simp [hDrv, hSome, hNc]) hN
                  · intro _ _ e2 o2
                    simp
              | ok ca =>
                  refine ⟨?_, ?_, ?_⟩
                  · intro h2
                    exact h2.elim
                  · intro _ _ hSome hNc
                    exact absurd (by simp [hDrv, hSome, hNc]) hN
                  · intro _ _ e2 o2
                    simp
      · have hDrvb : (cluster.status.driver != ClusterDriverRKE) = false := by
          simpa using hDrv
        simp only [hDrvb, Bool.false_and, Bool.false_eq_true, if_false]
        cases hna : env.nodeAgentImage with
        | error e =>
            refine ⟨?_, ?_, ?_⟩
            · intro h2
              exact h2.elim
            · intro _ h2
              exact h2.elim
            · intro _ _ e2 o2
              simp
        | ok na =>
            cases hca : env.clusterAgentImage with
            | error e =>
                refine ⟨?_, ?_, ?_⟩
                · intro h2
                  exact h2.elim
                · intro _ h2
                  exact h2.elim
                · intro _ _ e2 o2
                  simp
            | ok ca =>
                refine ⟨?_, ?_, ?_⟩
                · intro h2
                  exact h2.elim
                · intro _ h2
                  exact h2.elim
                · intro _ _ e2 o2
                  simp

/-- Environment for the C7 witness: the node-level deletion fails with an
output that carries the not-found message; everything else succeeds. -/
def notFoundEnv : Env :=
  { happyEnv with deleteNodeDS :=
      ("Error from server (NotFound): daemonsets.apps \"cattle-node-agent\" not found",
        some "exit status 1") }

/-- Witness for claim C7 on `c4bCluster` in `notFoundEnv`: the node-level
deletion fails with a not-found output and is swallowed — no deletion error
is escalated. -/
theorem claim_C7_delete_not_found_handling_witness :
    ∀ e o, (deployAgentFinish notFoundEnv c4bCluster emptyCache "a" "" [] 1 "ok").err
      ≠ some (.deleteFailed e o) :=
  (claim_C7_delete_not_found_handling notFoundEnv c4bCluster emptyCache "a" "" [] 1 "ok").2.2
    (by decide) (by decide)

/-- Modelled from the spec: the retry-until-true condition wrapper
(`v32.ClusterConditionX.DoUntilTrue`, library code outside this
repository) — the action runs only while the condition is not yet true; on
success the condition becomes true, on failure it stays not-true and the
error is returned. -/
def doUntilTrue (cluster : Cluster) (t : String) (actionErr : Option String) :
    Cluster × Option String :=
  if condIsTrue cluster t then (cluster, none)
  else
    match actionErr with
    | none => (setCondStatus cluster t "True", none)
    | some e => (setCondStatus cluster t "False", some e)

/-- Embedding of `setNetworkPolicyAnn` (lines 368-380): set the
network-policy default for upgraded canal clusters only when unset. -/
def setNetworkPolicyAnn (cluster : Cluster) : Cluster :=
  if cluster.spec.enableNetworkPolicy.isSome then cluster
  else
    match cluster.spec.rkeConfig with
    | some rke =>
      if rke.networkPlugin == "canal" then
        let sp := { cluster.spec with enableNetworkPolicy := some true }
        let anns := insertKey cluster.annotations
          "networking.management.cattle.io/enable-network-policy" "true"
        { cluster with spec := sp, annotations := anns }
      else cluster
    | none => cluster

/-- Embedding of `doSync` (lines 115-159): gate on Provisioned, list the
nodes (no-op when none exist yet), drive SystemAccountCreated, repair the
image cache when a recorded agent image is not cached, populate the taint
cache, deploy the agent, then set the network-policy default. -/
def doSync (env : Env) (cluster : Cluster) (cache : CacheState) :
    Cluster × CacheState × Option DeployErr :=
  if !condIsTrue cluster ClusterConditionProvisioned then (cluster, cache, none)
  else
    match env.nodesResult with
    | .error e => (cluster, cache, some (.nodesErr e))
    | .ok nodes =>
      if nodes.length == 0 then (cluster, cache, none)
      else
        let du := doUntilTrue cluster ClusterConditionSystemAccountCreated
          env.createSystemAccountErr
        match du.2 with
        | some e => (du.1, cache, some (.sysAccountErr e))
        | none =>
          let cluster1 := du.1
          let step1 : Except DeployErr CacheState :=
            if cluster1.status.agentImage != "" && !agentImagesCached cluster1.name cache then
              match env.nodeAgentImage with
              | .error e => .error (.cacheErr e)
              | .ok na =>
                match env.clusterAgentImage with
                | .error e => .error (.cacheErr e)
                | .ok ca => .ok (setAgentImagesEntry cluster1.name na ca cache)
            else .ok cache
          match step1 with
          | .error e => (cluster1, cache, some e)
          | .ok cache1 =>
            let cache2 :=
              if !controlPlaneTaintsCached cluster1.name cache1 then
                setControlPlaneTaintsEntry cluster1.name (getControlPlaneTaints nodes) cache1
              else cache1
            let r := deployAgent env cluster1 cache2
            match r.err with
            | some e => (r.cluster, r.cache, some e)
            | none => (setNetworkPolicyAnn r.cluster, r.cache, none)

/-- Result of one `sync` pass: the final working copy, the caches, the
returned error, and whether a write-back (`clusters.Update`) was issued. -/
structure SyncResult where
  cluster : Cluster
  cache : CacheState
  err : Option DeployErr
  updated : Bool
deriving DecidableEq

/-- Embedding of `sync` (lines 77-113) for a present, non-deleting cluster
(the deletion branch of lines 83-89 only triggers the external
system-account cleanup and returns).  The deep copy is value semantics in
this embedding.  The RKE auth-strategy normalization runs before `doSync`
and before the Provisioned gate (in Go it dereferences the RKE config,
which RKE-driver clusters always carry; the nil case is mapped to a
no-op).  The copy is written back only when it differs from the original;
a `doSync` error takes precedence over a write-back error. -/
def sync (env : Env) (original : Cluster) (cache : CacheState) : SyncResult :=
  let cluster :=
    if original.status.driver == ClusterDriverRKE then
      let strat :=
        if original.spec.localClusterAuthEndpointEnabled then "x509|webhook" else "x509"
      let newRke := original.spec.rkeConfig.map fun r => { r with authStrategy := strat }
      let sp := { original.spec with rkeConfig := newRke }
      { original with spec := sp }
    else original
  let r := doSync env cluster cache
  let updated := decide (¬ (r.1 = original))
  let err :=
    match r.2.2 with
    | some e => some e
    | none => if updated then env.updateErr.map DeployErr.updateFailed else none
  ⟨r.1, r.2.1, err, updated⟩

/-- Cluster for the C5 counterexample: RKE driver, recorded auth strategy
differing from the normalized one, Provisioned not yet true. -/
def c5Cluster : Cluster :=
  let rke : RKEConfig :=
    { authStrategy := "custom", privateRegistries := [], networkPlugin := "" }
  let sp := { emptySpec with rkeConfig := some rke }
  let status := { baseStatus with driver := "rke" }
  { name := "c5", annotations := [], spec := sp, status := status }

/-- Claim C5 counterexample: on `c5Cluster`, which is not yet provisioned,
the pass returns success but the working copy differs from the original
(the auth-strategy normalization ran before the Provisioned gate) and a
write-back is issued — the pass is not a frame-preserving no-op. -/
theorem claim_C5_counterexample :
    condIsTrue c5Cluster ClusterConditionProvisioned = false
    ∧ (sync happyEnv c5Cluster emptyCache).err = none
    ∧ (sync happyEnv c5Cluster emptyCache).updated = true
    ∧ (sync happyEnv c5Cluster emptyCache).cluster ≠ c5Cluster := by
  refine ⟨?_, ?_, ?_, ?_⟩ <;> decide

/-- Claim C5 (amended): for a cluster whose Provisioned condition is not
yet true, the pass returns success and performs no deployment; when the
driver is moreover not the RKE driver — so the pre-gate auth-strategy
normalization leaves the copy alone — the working copy equals the
original, the caches are untouched and no write-back occurs. -/
theorem claim_C5_not_provisioned_amended (env : Env) (cluster : Cluster)
    (cache : CacheState)
    (h1 : condIsTrue cluster ClusterConditionProvisioned = false)
    (h2 : (cluster.status.driver == ClusterDriverRKE) = false) :
    sync env cluster cache = ⟨cluster, cache, none, false⟩ := by
  unfold sync doSync
  simp [h1, h2]

/-- Witness for the amended claim C5 at a concrete non-RKE cluster with no
conditions set. -/
theorem claim_C5_not_provisioned_amended_witness :
    sync happyEnv baseCluster emptyCache = ⟨baseCluster, emptyCache, none, false⟩ :=
  claim_C5_not_provisioned_amended happyEnv baseCluster emptyCache (by decide) (by decide)
